import Mathlib

/-!
Verification development for the luminance core: the shader-program module
(`src/shader/program.rs`) and the gate-chain / tess / framebuffer protocol
described by the design document. Rust data types are shallowly embedded as
Lean structures and inductives; backend trait methods (`HasProgram`) are
embedded as explicit function parameters or as model functions; effectful
operations return explicit call traces.
-/

namespace Luminance

/-- Shader stage roles, one per `Stage` phantom tag of the source
(`TessellationControlShader`, `TessellationEvaluationShader`, `VertexShader`,
`GeometryShader`, `FragmentShader`). -/
inductive StageRole where
  | tessControl
  | tessEval
  | vertex
  | geometry
  | fragment
deriving DecidableEq, Repr

/-- A compiled shader stage: a backend handle (`repr` field of the Rust
`Stage<C, T>`) tagged at the type level with its pipeline role, mirroring the
phantom type parameter of the source. -/
structure Stage (r : StageRole) where
  repr : Nat
deriving DecidableEq, Repr

/-- The error type of the source `ProgramError` enum
(`src/shader/program.rs`, lines 103-108). -/
inductive ProgramError where
  | linkFailed (diagnostic : String)
  | inactiveUniform (name : String)
  | uniformTypeMismatch (name : String)
deriving DecidableEq, Repr

/-- The roles of the stages supplied to `Program::new`
(`src/shader/program.rs`, line 86): the signature takes an optional
tess-control/tess-eval pair, a mandatory vertex stage, an optional geometry
stage and a mandatory fragment stage. -/
def suppliedRoles (tess : Option (Stage .tessControl × Stage .tessEval))
    (_vertex : Stage .vertex) (geometry : Option (Stage .geometry))
    (_fragment : Stage .fragment) : List StageRole :=
  (match tess with
   | some _ => [StageRole.tessControl, StageRole.tessEval]
   | none => []) ++
  [StageRole.vertex] ++
  (match geometry with
   | some _ => [StageRole.geometry]
   | none => []) ++
  [StageRole.fragment]

/-- The stage-combination invariant in the specification's words: exactly one
vertex stage and one fragment stage, tess-control and tess-eval together or
not at all, geometry optional. -/
def validStageCombination (rs : List StageRole) : Prop :=
  rs.count StageRole.vertex = 1 ∧
  rs.count StageRole.fragment = 1 ∧
  rs.count StageRole.tessControl = rs.count StageRole.tessEval ∧
  rs.count StageRole.tessControl ≤ 1 ∧
  rs.count StageRole.geometry ≤ 1

/-- The tag of a uniform's value type. Modelled from the spec: a Uniform
handle carries a value type tag; concrete tags stand for the backend's
declared uniform types (the `Uniformable` instances of the missing
`shader/uniform.rs`). -/
inductive UniformType where
  | float
  | vec2
  | vec3
  | int
deriving DecidableEq, Repr

/-- Modelled from the spec: `UniformName` (declared in the missing
`shader/uniform.rs`) is either a textual name or a backend-assigned numeric
index. -/
inductive UniformName where
  | stringName (s : String)
  | numericIndex (i : Nat)
deriving DecidableEq, Repr

/-- The backend uniform handle `Self::U`: per the spec a resolved handle is
program identity, slot index and value type tag. -/
abbrev U : Type := Nat × Nat × UniformType

/-- A typed uniform handle, the Rust `Uniform<C, T>`: a backend handle
`repr : U` plus the phantom requested-type tag `t`. -/
structure Uniform (t : UniformType) where
  repr : U
deriving DecidableEq, Repr

/-- The constructor `Uniform::new` used at `src/shader/program.rs` line 95:
wraps a backend handle, never fails. -/
def Uniform.new {t : UniformType} (u : U) : Uniform t :=
  { repr := u }

/-- The backend program representation `Self::Program`. Modelled from the
spec: a linked program has a backend link handle and a set of active uniform
slots, each a name with its declared type. -/
structure ModelProgram where
  linkHandle : Nat
  activeUniforms : List (String × UniformType)
deriving DecidableEq, Repr

/-- Lookup of a textual name in the active uniform table: first matching
slot's index and declared type, if any. -/
def findUniform : List (String × UniformType) → String → Option (Nat × UniformType)
  | [], _ => none
  | (m, ty) :: rest, s =>
      if m = s then some (0, ty)
      else (findUniform rest s).map (fun p => (p.1 + 1, p.2))

/-- Modelled from the spec: the backend `map_uniform` of the `HasUniform`
contract (its implementation is not under src/). Per the trait declaration at
`src/shader/program.rs` line 69 it receives only the program and the
`UniformName` — no requested type. It resolves an active name to its handle
and fails with `InactiveUniform` otherwise. -/
def map_uniform (p : ModelProgram) (n : UniformName) : Except ProgramError U :=
  match n with
  | UniformName.stringName s =>
      match findUniform p.activeUniforms s with
      | some (i, ty) => Except.ok (p.linkHandle, i, ty)
      | none => Except.error (ProgramError.inactiveUniform s)
  | UniformName.numericIndex i =>
      match p.activeUniforms.get? i with
      | some (_, ty) => Except.ok (p.linkHandle, i, ty)
      | none => Except.error (ProgramError.inactiveUniform (toString i))

/-- The Rust `Program<C>` struct (`src/shader/program.rs`, lines 74-77): a
single field holding the backend program representation. -/
structure Program (R : Type) where
  repr : R
deriving DecidableEq, Repr

/-- The `UniformName` value built by `Program::uniform` at
`src/shader/program.rs` line 95: `UniformName::StringName(String::from(name))`. -/
def Program.uniformBackendArg (name : String) : UniformName :=
  UniformName.stringName name

/-- The body of `Program::uniform` (`src/shader/program.rs`, lines 94-96),
generic over the backend's `map_uniform` as the source is generic over `C`:
`C::map_uniform(&self.repr, UniformName::StringName(name)).map(|u| Uniform::new(u))`. -/
def Program.uniformWith (mu : ModelProgram → UniformName → Except ProgramError U)
    (t : UniformType) (p : Program ModelProgram) (name : String) :
    Except ProgramError (Uniform t) :=
  (mu p.repr (Program.uniformBackendArg name)).map Uniform.new

/-- `Program::uniform` instantiated with the model backend. -/
def Program.uniform (t : UniformType) (p : Program ModelProgram) (name : String) :
    Except ProgramError (Uniform t) :=
  Program.uniformWith map_uniform t p name

/-- `Program::uniform` as a call on `&self`: the shared-reference receiver is
threaded through explicitly, so the call returns the receiver together with
the lookup result. -/
def Program.uniformCall (mu : ModelProgram → UniformName → Except ProgramError U)
    (t : UniformType) (p : Program ModelProgram) (name : String) :
    Program ModelProgram × Except ProgramError (Uniform t) :=
  (p, Program.uniformWith mu t p name)

/-- The arguments handed to the backend `new_program` by `Program::new`
(`src/shader/program.rs`, line 87): the stage handles, with
`tess.map(|(tcs, tes)| (&tcs.repr, &tes.repr))`, `&vertex.repr`,
`geometry.map(|g| &g.repr)` and `&fragment.repr`. -/
structure LinkAttempt where
  tess : Option (Nat × Nat)
  vertex : Nat
  geometry : Option Nat
  fragment : Nat
deriving DecidableEq, Repr

/-- The argument mapping performed by `Program::new` before calling the
backend (line 87). -/
def linkArgs (tess : Option (Stage .tessControl × Stage .tessEval))
    (vertex : Stage .vertex) (geometry : Option (Stage .geometry))
    (fragment : Stage .fragment) : LinkAttempt :=
  { tess := tess.map (fun s => (s.1.repr, s.2.repr)),
    vertex := vertex.repr,
    geometry := geometry.map (fun g => g.repr),
    fragment := fragment.repr }

/-- The body of `Program::new` (`src/shader/program.rs`, lines 86-92),
generic over the backend `new_program`: one backend call on the mapped stage
handles, whose `Ok` representation is wrapped in a `Program` and whose error
is returned as is. The second component records the backend link attempts the
call performs. -/
def Program.new {R : Type} (newProgram : LinkAttempt → Except ProgramError R)
    (tess : Option (Stage .tessControl × Stage .tessEval)) (vertex : Stage .vertex)
    (geometry : Option (Stage .geometry)) (fragment : Stage .fragment) :
    Except ProgramError (Program R) × List LinkAttempt :=
  ((newProgram (linkArgs tess vertex geometry fragment)).map
      (fun repr => { repr := repr }),
   [linkArgs tess vertex geometry fragment])

/-- Backend release calls observable from this module: `free_program`
(trait line 67) and, for contrast, the stage release of the `HasStage`
contract. -/
inductive BackendCall where
  | freeProgram (handle : Nat)
  | freeStage (handle : Nat)
deriving DecidableEq, Repr

/-- Modelled from the spec: the backend `free_program` (declared at
`src/shader/program.rs` line 67, implemented outside src/) releases the
program's backend link handle and nothing else. -/
def free_program (p : ModelProgram) : List BackendCall :=
  [BackendCall.freeProgram p.linkHandle]

/-- The `Drop` impl of `Program` (`src/shader/program.rs`, lines 79-83):
dropping calls `C::free_program(&mut self.repr)` once. -/
def Program.drop (p : Program ModelProgram) : List BackendCall :=
  free_program p.repr

/-- The graphics resources alive on the backend: stage handles and program
link handles. -/
structure GfxWorld where
  liveStages : List Nat
  livePrograms : List Nat
deriving DecidableEq, Repr

/-- Interpretation of one backend release call on the resource world. -/
def applyCall : BackendCall → GfxWorld → GfxWorld
  | BackendCall.freeProgram h, w => { w with livePrograms := w.livePrograms.erase h }
  | BackendCall.freeStage h, w => { w with liveStages := w.liveStages.erase h }

/-- Interpretation of a list of backend release calls, first to last. -/
def applyCalls (cs : List BackendCall) (w : GfxWorld) : GfxWorld :=
  cs.foldl (fun w c => applyCall c w) w

/-- A uniform-set operation attempted inside an update body, identified by
the backend handle it targets. -/
abbrev UniformWrite : Type := U

/-- Modelled from the spec: the backend `update_uniforms` (declared at
`src/shader/program.rs` line 71, implemented outside src/) invokes `f`; the
uniform-set operations the body attempts are observed as `f ()`, and per the
spec's handle-validity invariant only writes whose handle carries this
program's identity are accepted, the others being rejected at the interface
boundary. Returns the attempted and the accepted writes. -/
def update_uniforms (p : ModelProgram) (f : Unit → List UniformWrite) :
    List UniformWrite × List UniformWrite :=
  (f (), (f ()).filter (fun w => w.1 == p.linkHandle))

/-- The body of `Program::update` (`src/shader/program.rs`, lines 98-100):
`C::update_uniforms(&self.repr, f)`. -/
def Program.update (p : Program ModelProgram) (f : Unit → List UniformWrite) :
    List UniformWrite × List UniformWrite :=
  update_uniforms p.repr f

/-- Primitive modes of a Tess. Modelled from the spec: the `luminance::tess::Mode`
enum is not under src/; the spec lists these seven variants. -/
inductive Mode where
  | point
  | line
  | lineStrip
  | triangle
  | triangleStrip
  | triangleFan
  | patch
deriving DecidableEq, Repr

/-- Modelled from the spec: the error type of `TessBuilder::build`. -/
inductive TessBuildError where
  | noVerticesSpecified
  | backendUploadFailed
deriving DecidableEq, Repr

/-- Modelled from the spec: a built Tess — optional vertex attribute data,
optional index data, the vertex count and the primitive mode. -/
structure Tess where
  vertexData : Option (List Nat)
  indexData : Option (List Nat)
  vertCount : Nat
  mode : Mode
deriving DecidableEq, Repr

/-- Modelled from the spec: the `TessBuilder` accumulates optional vertex
attribute data, optional index data, an explicit vertex count (0 when unset)
and a primitive mode, as used by the attributeless example
(`examples/05-attributeless/src/main.rs`, lines 38-42). -/
structure TessBuilder where
  vertexData : Option (List Nat)
  indexData : Option (List Nat)
  vertexNb : Nat
  mode : Mode
deriving DecidableEq, Repr

/-- A fresh builder: no data, no explicit count, default mode. -/
def TessBuilder.new : TessBuilder :=
  { vertexData := none, indexData := none, vertexNb := 0, mode := Mode.point }

/-- The builder's `set_vertex_nb`. -/
def TessBuilder.set_vertex_nb (b : TessBuilder) (n : Nat) : TessBuilder :=
  { b with vertexNb := n }

/-- The builder's `set_mode`. -/
def TessBuilder.set_mode (b : TessBuilder) (m : Mode) : TessBuilder :=
  { b with mode := m }

/-- The builder's `set_vertices`: supplies attribute data, from which the
vertex count is inferred. -/
def TessBuilder.set_vertices (b : TessBuilder) (vs : List Nat) : TessBuilder :=
  { b with vertexData := some vs }

/-- Modelled from the spec: `build()` fails with `NoVerticesSpecified` when
neither data nor a positive explicit count is given, and otherwise yields a
Tess whose count is inferred from the data or taken from the explicit
count. -/
def TessBuilder.build (b : TessBuilder) : Except TessBuildError Tess :=
  match b.vertexData with
  | some vs =>
      if vs.length = 0 then Except.error TessBuildError.noVerticesSpecified
      else Except.ok { vertexData := some vs, indexData := b.indexData,
                       vertCount := vs.length, mode := b.mode }
  | none =>
      if b.vertexNb = 0 then Except.error TessBuildError.noVerticesSpecified
      else Except.ok { vertexData := none, indexData := b.indexData,
                       vertCount := b.vertexNb, mode := b.mode }

/-- Modelled from the spec: a `RenderState` is a pure value describing
blending, depth test and face culling configuration. -/
structure RenderState where
  blending : Bool
  depthTest : Bool
  culling : Bool
deriving DecidableEq, Repr

/-- A clear-color payload (component representation abstracted). -/
structure RGBA where
  r : Nat
  g : Nat
  b : Nat
  a : Nat
deriving DecidableEq, Repr

/-- Modelled from the spec: a `Framebuffer` records its backend target via
its dimensions; the back buffer is rebuilt from the surface size. -/
structure Framebuffer where
  dim : Nat × Nat
deriving DecidableEq, Repr

/-- Modelled from the spec: `Framebuffer::back_buffer(size)` builds the
back-buffer framebuffer recording exactly the given dimensions
(`examples/05-attributeless/src/main.rs`, line 44). -/
def Framebuffer.back_buffer (d : Nat × Nat) : Framebuffer :=
  { dim := d }

/-- The resize handler of the example (`main.rs`, lines 51-53): on a
framebuffer-size event the back buffer is rebuilt from the new
dimensions. -/
def onFramebufferSize (width height : Nat) : Framebuffer :=
  Framebuffer.back_buffer (width, height)

/-- Modelled from the spec: a TessGate scope body — the only place draw
calls are issued, each against one Tess. -/
structure TessScope where
  draws : List Tess
deriving DecidableEq, Repr

/-- Modelled from the spec: a RenderGate scope body — a render state plus
the TessGate scopes entered inside it. -/
structure RenderScope where
  state : RenderState
  tessScopes : List TessScope
deriving DecidableEq, Repr

/-- Modelled from the spec: a ShadingGate scope body — a program plus the
RenderGate scopes entered inside it. -/
structure ShadingScope where
  program : ModelProgram
  renderScopes : List RenderScope
deriving DecidableEq, Repr

/-- Modelled from the spec: a Pipeline scope — a target framebuffer, a clear
color, and the ShadingGate scopes entered inside it. Because each gate body
exists only as a child of its parent scope, a gate constructed out of order
is unrepresentable in this syntax, mirroring the source's closure nesting
(`examples/05-attributeless/src/main.rs`, lines 59-69). -/
structure PipelineScope where
  framebuffer : Framebuffer
  clearColor : RGBA
  shadingScopes : List ShadingScope
deriving DecidableEq, Repr

/-- The backend calls a gate entry or a draw performs, in order. -/
inductive GateEvent where
  | bindFramebuffer (dim : Nat × Nat)
  | bindProgram (handle : Nat)
  | applyRenderState (state : RenderState)
  | draw (mode : Mode) (invocations : Nat)
deriving DecidableEq, Repr

/-- Events of a TessGate body: one draw per Tess, carrying its mode and
vertex count (`tess_gate.render`, `main.rs` line 66). -/
def runTessScope (ts : TessScope) : List GateEvent :=
  ts.draws.map (fun t => GateEvent.draw t.mode t.vertCount)

/-- Events of a list of TessGate scopes, in order. -/
def runTessScopes : List TessScope → List GateEvent
  | [] => []
  | ts :: rest => runTessScope ts ++ runTessScopes rest

/-- Events of a RenderGate scope: entering applies the render state, then
the nested TessGate scopes run (`rdr_gate.render`, `main.rs` line 63). -/
def runRenderScope (rs : RenderScope) : List GateEvent :=
  GateEvent.applyRenderState rs.state :: runTessScopes rs.tessScopes

/-- Events of a list of RenderGate scopes, in order. -/
def runRenderScopes : List RenderScope → List GateEvent
  | [] => []
  | rs :: rest => runRenderScope rs ++ runRenderScopes rest

/-- Events of a ShadingGate scope: entering binds the program, then the
nested RenderGate scopes run (`shd_gate.shade`, `main.rs` line 62). -/
def runShadingScope (ss : ShadingScope) : List GateEvent :=
  GateEvent.bindProgram ss.program.linkHandle :: runRenderScopes ss.renderScopes

/-- Events of a list of ShadingGate scopes, in order. -/
def runShadingScopes : List ShadingScope → List GateEvent
  | [] => []
  | ss :: rest => runShadingScope ss ++ runShadingScopes rest

/-- Events of a Pipeline scope: entering binds the target framebuffer, then
the nested ShadingGate scopes run (`pipeline`, `main.rs` line 61). -/
def runPipeline (p : PipelineScope) : List GateEvent :=
  GateEvent.bindFramebuffer p.framebuffer.dim :: runShadingScopes p.shadingScopes

/-- The states of the spec's gate state machine (spec section on the gate
chain): surface-ready, framebuffer-bound, program-bound,
state-configured. -/
inductive GateState where
  | surfaceReady
  | fbBound
  | progBound
  | stateConfigured
deriving DecidableEq, Repr

/-- The legal transitions of the gate state machine: a framebuffer may be
bound only from surface-ready; a program only under a bound framebuffer
(re-entrant for multi-pass shading); a render state only under a bound
program; a draw only with a render state configured, i.e. inside a
TessGate. -/
def legalStep : GateState → GateEvent → Option GateState
  | GateState.surfaceReady, GateEvent.bindFramebuffer _ => some GateState.fbBound
  | GateState.fbBound, GateEvent.bindProgram _ => some GateState.progBound
  | GateState.progBound, GateEvent.bindProgram _ => some GateState.progBound
  | GateState.stateConfigured, GateEvent.bindProgram _ => some GateState.progBound
  | GateState.progBound, GateEvent.applyRenderState _ => some GateState.stateConfigured
  | GateState.stateConfigured, GateEvent.applyRenderState _ => some GateState.stateConfigured
  | GateState.stateConfigured, GateEvent.draw _ _ => some GateState.stateConfigured
  | _, _ => none

/-- Run the gate state machine over an event list: the final state, or
`none` at the first illegal event. -/
def runState : GateState → List GateEvent → Option GateState
  | s, [] => some s
  | s, e :: es =>
      match legalStep s e with
      | some s2 => runState s2 es
      | none => none

/-- An event list is legal from a state when the machine accepts every
event. -/
def legalTrace (s : GateState) (es : List GateEvent) : Bool :=
  (runState s es).isSome

end Luminance

namespace Luminance

theorem runState_append (xs ys : List GateEvent) :
    ∀ s : GateState, runState s (xs ++ ys) = (runState s xs).bind fun s2 => runState s2 ys := by
  induction xs with
  | nil => intro s; simp [runState]
  | cons e es ih =>
      intro s
      cases h : legalStep s e <;> simp [runState, h, ih]

theorem runState_draws (ds : List Tess) :
    runState GateState.stateConfigured
      (ds.map fun t => GateEvent.draw t.mode t.vertCount) = some GateState.stateConfigured := by
  induction ds with
  | nil => simp [runState]
  | cons t ds ih => simp [runState, legalStep, ih]

theorem runState_tessScopes (tss : List TessScope) :
    runState GateState.stateConfigured (runTessScopes tss) = some GateState.stateConfigured := by
  induction tss with
  | nil => simp [runTessScopes, runState]
  | cons ts tss ih =>
      simp [runTessScopes, runState_append, runTessScope, runState_draws, ih]

theorem runState_renderScope (rs : RenderScope) (s : GateState)
    (h : s = GateState.progBound ∨ s = GateState.stateConfigured) :
    runState s (runRenderScope rs) = some GateState.stateConfigured := by
  rcases h with h | h <;> subst h <;>
    simp [runRenderScope, runState, legalStep, runState_tessScopes]

theorem runState_renderScopes (rss : List RenderScope) :
    ∀ s : GateState, s = GateState.progBound ∨ s = GateState.stateConfigured →
      ∃ s2, runState s (runRenderScopes rss) = some s2 ∧
        (s2 = GateState.progBound ∨ s2 = GateState.stateConfigured) := by
  induction rss with
  | nil => intro s h; exact ⟨s, by simp [runRenderScopes, runState], h⟩
  | cons rs rss ih =>
      intro s h
      obtain ⟨s2, h2, hmem⟩ := ih GateState.stateConfigured (Or.inr rfl)
      refine ⟨s2, ?_, hmem⟩
      simp [runRenderScopes, runState_append, runState_renderScope rs s h, h2]

theorem runState_shadingScope (ss : ShadingScope) (s : GateState)
    (h : s = GateState.fbBound ∨ s = GateState.progBound ∨ s = GateState.stateConfigured) :
    ∃ s2, runState s (runShadingScope ss) = some s2 ∧
      (s2 = GateState.progBound ∨ s2 = GateState.stateConfigured) := by
  obtain ⟨s2, h2, hmem⟩ := runState_renderScopes ss.renderScopes GateState.progBound (Or.inl rfl)
  refine ⟨s2, ?_, hmem⟩
  rcases h with h | h | h <;> subst h <;> simp [runShadingScope, runState, legalStep, h2]

theorem runState_shadingScopes (sss : List ShadingScope) :
    ∀ s : GateState,
      s = GateState.fbBound ∨ s = GateState.progBound ∨ s = GateState.stateConfigured →
      ∃ s2, runState s (runShadingScopes sss) = some s2 ∧
        (s2 = GateState.fbBound ∨ s2 = GateState.progBound ∨ s2 = GateState.stateConfigured) := by
  induction sss with
  | nil => intro s h; exact ⟨s, by simp [runShadingScopes, runState], h⟩
  | cons ss sss ih =>
      intro s h
      obtain ⟨s1, h1, hmem1⟩ := runState_shadingScope ss s h
      obtain ⟨s2, h2, hmem2⟩ := ih s1 (Or.inr hmem1)
      refine ⟨s2, ?_, hmem2⟩
      simp [runShadingScopes, runState_append, h1, h2]

theorem bindFramebuffer_not_in_tessScopes (d : Nat × Nat) :
    ∀ tss : List TessScope, GateEvent.bindFramebuffer d ∉ runTessScopes tss := by
  intro tss
  induction tss with
  | nil => simp [runTessScopes]
  | cons ts rest ih => simp [runTessScopes, runTessScope, ih]

theorem bindFramebuffer_not_in_renderScopes (d : Nat × Nat) :
    ∀ rss : List RenderScope, GateEvent.bindFramebuffer d ∉ runRenderScopes rss := by
  intro rss
  induction rss with
  | nil => simp [runRenderScopes]
  | cons rs rest ih =>
      simp [runRenderScopes, runRenderScope, ih, bindFramebuffer_not_in_tessScopes]

theorem bindFramebuffer_not_in_shadingScopes (d : Nat × Nat) :
    ∀ sss : List ShadingScope, GateEvent.bindFramebuffer d ∉ runShadingScopes sss := by
  intro sss
  induction sss with
  | nil => simp [runShadingScopes]
  | cons ss rest ih =>
      simp [runShadingScopes, runShadingScope, ih, bindFramebuffer_not_in_renderScopes]

end Luminance

namespace Luminance

/-- C2: every stage combination that can be passed to `Program::new`
satisfies the stage-combination invariant — exactly one vertex and one
fragment stage, tess-control and tess-eval supplied together or not at all,
geometry optional; invalid combinations are unrepresentable at the
signature of `Program::new`. -/
theorem c2_stage_combination_valid
    (tess : Option (Stage .tessControl × Stage .tessEval))
    (vertex : Stage .vertex) (geometry : Option (Stage .geometry))
    (fragment : Stage .fragment) :
    validStageCombination (suppliedRoles tess vertex geometry fragment) := by
  cases tess <;> cases geometry <;> simp [suppliedRoles, validStageCombination]

/-- C3 (counterexample): against a program whose `time` uniform is declared
`vec2`, requesting `time` at type `float` does not fail with
`UniformTypeMismatch("time")` — it succeeds, because `map_uniform` (line 69)
never receives the requested type. -/
theorem c3_counterexample :
    Program.uniform UniformType.float ⟨⟨1, [("time", UniformType.vec2)]⟩⟩ "time" =
      Except.ok (Uniform.new (1, 0, UniformType.vec2)) ∧
    Program.uniform UniformType.float ⟨⟨1, [("time", UniformType.vec2)]⟩⟩ "time" ≠
      Except.error (ProgramError.uniformTypeMismatch "time") := by
  refine ⟨rfl, ?_⟩
  intro h
  rw [show Program.uniform UniformType.float ⟨⟨1, [("time", UniformType.vec2)]⟩⟩ "time" =
        Except.ok (Uniform.new (1, 0, UniformType.vec2)) from rfl] at h
  exact Except.noConfusion h

/-- C3 (amended): `p.uniform::<T>(n)` fails with `InactiveUniform(n)` (never
succeeds, never crashes) whenever `n` does not resolve to an active slot;
whenever `n` resolves to an active slot it returns `Ok` for every requested
type `T`; and for every backend `map_uniform` the outcome is independent of
the requested type, so no type mismatch can be detected at lookup. -/
theorem c3_uniform_lookup (t : UniformType) (p : Program ModelProgram) (n : String) :
    (findUniform p.repr.activeUniforms n = none →
      Program.uniform t p n = Except.error (ProgramError.inactiveUniform n)) ∧
    (∀ i ty, findUniform p.repr.activeUniforms n = some (i, ty) →
      Program.uniform t p n = Except.ok (Uniform.new (p.repr.linkHandle, i, ty))) ∧
    (∀ (mu : ModelProgram → UniformName → Except ProgramError U)
       (t₁ t₂ : UniformType) (e : ProgramError),
      Program.uniformWith mu t₁ p n = Except.error e ↔
        Program.uniformWith mu t₂ p n = Except.error e) := by
  refine ⟨?_, ?_, ?_⟩
  · intro h
    simp [Program.uniform, Program.uniformWith, map_uniform, Program.uniformBackendArg, h,
      Except.map]
  · intro i ty h
    simp [Program.uniform, Program.uniformWith, map_uniform, Program.uniformBackendArg, h,
      Uniform.new, Except.map]
  · intro mu t₁ t₂ e
    cases hmu : mu p.repr (Program.uniformBackendArg n) <;>
      simp [Program.uniformWith, hmu, Except.map]

/-- C3 (witness): the inactive case at a concrete program and name. -/
theorem c3_uniform_lookup_witness :
    Program.uniform UniformType.float ⟨⟨1, [("time", UniformType.vec2)]⟩⟩ "nope" =
      Except.error (ProgramError.inactiveUniform "nope") :=
  (c3_uniform_lookup UniformType.float ⟨⟨1, [("time", UniformType.vec2)]⟩⟩ "nope").1
    (by decide)

/-- C4: dropping a `Program` releases exactly the backend link handle —
interpreting the drop's backend calls on any resource world leaves every
stage alive, removes one occurrence of the program's link handle, the
`free_program` call on that handle occurs exactly once, and no stage release
is ever issued. -/
theorem c4_drop_frees_link_once_keeps_stages (p : Program ModelProgram) (w : GfxWorld) :
    (applyCalls (Program.drop p) w).liveStages = w.liveStages ∧
    (applyCalls (Program.drop p) w).livePrograms = w.livePrograms.erase p.repr.linkHandle ∧
    (Program.drop p).count (BackendCall.freeProgram p.repr.linkHandle) = 1 ∧
    ∀ h : Nat, BackendCall.freeStage h ∉ Program.drop p := by
  refine ⟨rfl, rfl, ?_, ?_⟩
  · simp [Program.drop, free_program]
  · intro h hmem
    simp [Program.drop, free_program] at hmem

/-- C4 (witness): a concrete drop issues no stage release. -/
theorem c4_drop_witness :
    BackendCall.freeStage 5 ∉ Program.drop ⟨⟨1, [("time", UniformType.vec2)]⟩⟩ :=
  (c4_drop_frees_link_once_keeps_stages ⟨⟨1, [("time", UniformType.vec2)]⟩⟩ ⟨[5], [1]⟩).2.2.2 5

/-- C5: `p.update(f)` invokes `f` — the writes the body attempts are exactly
`f ()` — and a uniform-set operation inside the body is accepted exactly when
its handle carries this program's identity; writes against handles of any
other program are rejected. -/
theorem c5_update_confines_writes (p : Program ModelProgram)
    (f : Unit → List UniformWrite) (w : UniformWrite) (hw : w ∈ f ()) :
    (Program.update p f).1 = f () ∧
    (w ∈ (Program.update p f).2 ↔ w.1 = p.repr.linkHandle) := by
  refine ⟨rfl, ?_⟩
  simp [Program.update, update_uniforms, List.mem_filter, hw]

/-- C5 (witness): with a body attempting one write against the updated
program and one against another program, the former is accepted. -/
theorem c5_update_witness :
    ((1, 0, UniformType.float) : UniformWrite) ∈
      (Program.update ⟨⟨1, []⟩⟩
        (fun _ => [(1, 0, UniformType.float), (2, 0, UniformType.float)])).2 :=
  ((c5_update_confines_writes ⟨⟨1, []⟩⟩
      (fun _ => [(1, 0, UniformType.float), (2, 0, UniformType.float)])
      (1, 0, UniformType.float) (by decide)).2).mpr (by decide)

/-- C8: uniform lookup is pure and idempotent — the `&self` receiver comes
back unchanged, and a second lookup on the returned receiver yields the same
result as the first, for every backend `map_uniform`. -/
theorem c8_uniform_lookup_pure_idempotent
    (mu : ModelProgram → UniformName → Except ProgramError U)
    (t : UniformType) (p : Program ModelProgram) (n : String) :
    (Program.uniformCall mu t p n).1 = p ∧
    (Program.uniformCall mu t (Program.uniformCall mu t p n).1 n).2 =
      (Program.uniformCall mu t p n).2 :=
  ⟨rfl, rfl⟩

/-- C9: `Program::new` performs exactly one backend link attempt, on the
mapped stage handles, and propagates the backend result unchanged: `Ok(repr)`
becomes `Ok(Program { repr })` and any error is returned as is. -/
theorem c9_new_propagates_backend {R : Type}
    (newProgram : LinkAttempt → Except ProgramError R)
    (tess : Option (Stage .tessControl × Stage .tessEval)) (vertex : Stage .vertex)
    (geometry : Option (Stage .geometry)) (fragment : Stage .fragment) :
    (Program.new newProgram tess vertex geometry fragment).2 =
      [linkArgs tess vertex geometry fragment] ∧
    (∀ r, newProgram (linkArgs tess vertex geometry fragment) = Except.ok r →
      (Program.new newProgram tess vertex geometry fragment).1 =
        Except.ok { repr := r }) ∧
    (∀ e, newProgram (linkArgs tess vertex geometry fragment) = Except.error e →
      (Program.new newProgram tess vertex geometry fragment).1 = Except.error e) := by
  refine ⟨rfl, ?_, ?_⟩ <;> intro x h <;> simp [Program.new, h, Except.map]

/-- C9 (witness): a concrete backend accepting vertex handle 7 yields
`Ok(Program { repr := 42 })` through `Program::new`. -/
theorem c9_new_witness :
    (Program.new
        (fun a => if a.vertex = 7 then Except.ok 42
                  else Except.error (ProgramError.linkFailed "no"))
        none ⟨7⟩ none ⟨8⟩).1 = Except.ok { repr := 42 } :=
  (c9_new_propagates_backend
      (fun a => if a.vertex = 7 then Except.ok 42
                else Except.error (ProgramError.linkFailed "no"))
      none ⟨7⟩ none ⟨8⟩).2.1 42 rfl

/-- C10: the public uniform lookup always resolves by textual name — the
`UniformName` handed to the backend is `StringName(name)`, never the numeric
variant, so for every backend the result is the backend lookup of the
textual name on this program. -/
theorem c10_uniform_lookup_by_string_name
    (mu : ModelProgram → UniformName → Except ProgramError U)
    (t : UniformType) (p : Program ModelProgram) (n : String) :
    Program.uniformBackendArg n = UniformName.stringName n ∧
    (∀ i, Program.uniformBackendArg n ≠ UniformName.numericIndex i) ∧
    Program.uniformWith mu t p n = (mu p.repr (UniformName.stringName n)).map Uniform.new := by
  refine ⟨rfl, ?_, rfl⟩
  intro i h
  exact UniformName.noConfusion h

/-- C10 (witness): the backend argument for a concrete name is not a numeric
index. -/
theorem c10_string_name_witness :
    Program.uniformBackendArg "time" ≠ UniformName.numericIndex 0 :=
  (c10_uniform_lookup_by_string_name map_uniform UniformType.float ⟨⟨1, []⟩⟩ "time").2.1 0

/-- C1: every execution expressible through the gate chain is well ordered —
gate scopes exist only nested inside their parent scope (a TessGate body only
inside a RenderGate body, inside a ShadingGate body, inside a Pipeline scope
entered with a framebuffer), so the event trace of every pipeline execution
is accepted by the spec's gate state machine from the surface-ready state; in
particular every draw happens with framebuffer bound, program bound and
render state configured. -/
theorem c1_gate_chain_well_ordered (p : PipelineScope) :
    legalTrace GateState.surfaceReady (runPipeline p) = true := by
  obtain ⟨s2, h2, _⟩ := runState_shadingScopes p.shadingScopes GateState.fbBound (Or.inl rfl)
  simp [legalTrace, runPipeline, runState, legalStep, h2]

/-- C6: building a Tess with explicit vertex count `n > 0`, a mode and no
attribute data succeeds, and its TessGate draw issues exactly `n` per-vertex
invocations with that mode; building with count 0 and no data fails with
`NoVerticesSpecified`. -/
theorem c6_attributeless_tess (n : Nat) (m : Mode) :
    (0 < n → ∃ t : Tess,
      ((TessBuilder.new.set_vertex_nb n).set_mode m).build = Except.ok t ∧
      t.vertCount = n ∧ t.mode = m ∧
      runTessScope { draws := [t] } = [GateEvent.draw m n]) ∧
    ((TessBuilder.new.set_vertex_nb 0).set_mode m).build =
      Except.error TessBuildError.noVerticesSpecified := by
  constructor
  · intro hn
    have hne : n ≠ 0 := Nat.pos_iff_ne_zero.mp hn
    refine ⟨{ vertexData := none, indexData := none, vertCount := n, mode := m },
      ?_, rfl, rfl, rfl⟩
    simp [TessBuilder.new, TessBuilder.set_vertex_nb, TessBuilder.set_mode,
      TessBuilder.build, hne]
  · simp [TessBuilder.new, TessBuilder.set_vertex_nb, TessBuilder.set_mode,
      TessBuilder.build]

/-- C6 (witness): the attributeless triangle of the example — count 3, mode
Triangle. -/
theorem c6_attributeless_tess_witness :
    0 < 3 ∧ ∃ t : Tess,
      ((TessBuilder.new.set_vertex_nb 3).set_mode Mode.triangle).build = Except.ok t ∧
      t.vertCount = 3 ∧ t.mode = Mode.triangle ∧
      runTessScope { draws := [t] } = [GateEvent.draw Mode.triangle 3] :=
  ⟨by decide, (c6_attributeless_tess 3 Mode.triangle).1 (by decide)⟩

/-- C7: rebuilding the back buffer from resize dimensions records exactly
those dimensions, and every pipeline scope entered with that framebuffer
targets the new size — the only framebuffer bind in its trace carries the new
dimensions; a Framebuffer value's dimensions change only by rebuilding. -/
theorem c7_back_buffer_resize (width height : Nat) (c : RGBA)
    (sss : List ShadingScope) (d : Nat × Nat)
    (hd : GateEvent.bindFramebuffer d ∈
      runPipeline { framebuffer := onFramebufferSize width height,
                    clearColor := c, shadingScopes := sss }) :
    (onFramebufferSize width height).dim = (width, height) ∧
    (Framebuffer.back_buffer (width, height)).dim = (width, height) ∧
    runPipeline { framebuffer := onFramebufferSize width height,
                  clearColor := c, shadingScopes := sss } =
      GateEvent.bindFramebuffer (width, height) :: runShadingScopes sss ∧
    d = (width, height) := by
  refine ⟨rfl, rfl, rfl, ?_⟩
  simp [runPipeline, onFramebufferSize, Framebuffer.back_buffer,
    bindFramebuffer_not_in_shadingScopes] at hd
  exact hd

/-- C7 (witness): a resize to 800 by 600 followed by a pipeline entry binds
exactly the new dimensions. -/
theorem c7_back_buffer_resize_witness :
    (onFramebufferSize 800 600).dim = (800, 600) ∧
    (Framebuffer.back_buffer (800, 600)).dim = (800, 600) ∧
    runPipeline { framebuffer := onFramebufferSize 800 600,
                  clearColor := ⟨0, 0, 0, 0⟩, shadingScopes := [] } =
      GateEvent.bindFramebuffer (800, 600) :: runShadingScopes [] ∧
    ((800, 600) : Nat × Nat) = (800, 600) :=
  c7_back_buffer_resize 800 600 ⟨0, 0, 0, 0⟩ [] (800, 600) (by decide)

end Luminance
